import Mathlib

/-!
Shallow embedding of the controller service of the PowerVS block CSI driver
(pkg/driver/controller.go), together with the pieces of its collaborator
interfaces that the controller logic consumes.

The Disk Store Client (the cloud package) is a remote collaborator: each of
its operations is represented by a response oracle inside a CloudBehavior
record, and every controller operation returns, next to its result, the exact
list of remote calls it issued. Error results carry only their status-code
classification; log statements and human-readable message strings are
dropped, as no property below concerns them.
-/

namespace PowerVS

/-- Modelled from the spec: closed error-kind enumeration standing for the
sentinel error values of the cloud package (ErrNotFound, ErrAlreadyExists,
ErrIdempotentParameterMismatch), which is not among the embedded sources;
any other remote failure is an opaque message. -/
inductive CloudErr where
  | notFound
  | alreadyExists
  | idempotentParameterMismatch
  | other (msg : String)
deriving DecidableEq, Repr

/-- Status-code classification of an RPC failure (grpc codes used by the
controller). -/
inductive Code where
  | invalidArgument
  | notFound
  | alreadyExists
  | internal
  | unimplemented
deriving DecidableEq, Repr

instance {ε α : Type} [DecidableEq ε] [DecidableEq α] : DecidableEq (Except ε α) := fun a b =>
  match a, b with
  | Except.error e, Except.error f =>
    if h : e = f then isTrue (by rw [h]) else isFalse fun hc => h (Except.error.inj hc)
  | Except.error _, Except.ok _ => isFalse fun hc => Except.noConfusion hc
  | Except.ok _, Except.error _ => isFalse fun hc => Except.noConfusion hc
  | Except.ok x, Except.ok y =>
    if h : x = y then isTrue (by rw [h]) else isFalse fun hc => h (Except.ok.inj hc)

/-- Access mode of a volume capability; the value of GetMode on a possibly
absent AccessMode, where absence yields the unknown mode. -/
inductive AccessMode where
  | unknown
  | singleNodeReaderOnly
  | singleNodeWriter
  | multiNodeReaderOnly
  | multiNodeSingleWriter
  | multiNodeMultiWriter
deriving DecidableEq, Repr

/-- Requested volume capability; only its access mode is inspected by the
controller. -/
structure VolumeCapability where
  accessMode : AccessMode
deriving DecidableEq, Repr

/-- Capacity range of a create or expand request. A limit of zero means
unbounded. -/
structure CapacityRange where
  requiredBytes : Int
  limitBytes : Int
deriving DecidableEq, Repr

/-- Modelled from the spec: descriptor of a provisioned disk as returned by
the Disk Store Client (the cloud package Disk struct is not among the
embedded sources): provider-assigned volume identifier, actual capacity in
GiB, and the worldWideName device identifier. -/
structure Disk where
  volumeID : String
  capacityGiB : Int
  wwn : String
deriving DecidableEq, Repr

/-- Modelled from the spec: options passed to the Disk Store create call
(the cloud package DiskOptions struct is not among the embedded sources). -/
structure DiskOptions where
  shareable : Bool
  capacityBytes : Int
  volumeType : String
deriving DecidableEq, Repr

/-- Modelled from the spec: the provider allocation granularity of one GiB,
pinned by the spec scenario rounding 2000000000 bytes up to 2147483648. -/
def GiB : Int := 1073741824

/-- Modelled from the spec: the Size Normalizer rounding step
(util.RoundUpBytes is not among the embedded sources): the smallest multiple
of the allocation granularity that is greater than or equal to the requested
byte count. -/
def RoundUpBytes (volumeSizeBytes : Int) : Int :=
  ((volumeSizeBytes + GiB - 1) / GiB) * GiB

/-- Modelled from the spec: conversion of a GiB count to bytes
(util.GiBToBytes is not among the embedded sources). -/
def GiBToBytes (volumeSizeGiB : Int) : Int :=
  volumeSizeGiB * GiB

/-- Modelled from the spec: the fixed default volume size substituted when no
capacity range is given (cloud.DefaultVolumeSize is not among the embedded
sources); ten GiB, already aligned to the allocation granularity. -/
def DefaultVolumeSize : Int := 10 * GiB

/-- Modelled from the spec: the single recognized create parameter key. -/
def VolumeTypeKey : String := "type"

/-- Modelled from the spec: the publish context key under which the volume's
worldWideName device identifier is returned. -/
def WWNKey : String := "wwn"

/-- One remote call issued against the Disk Store Client, recorded in the
order the controller makes it. -/
inductive CloudCall where
  | createDisk (name : String) (opts : DiskOptions)
  | deleteDisk (volumeID : String)
  | getDisk (volumeID : String)
  | getInstance (nodeID : String)
  | attachDisk (volumeID nodeID : String)
  | detachDisk (volumeID nodeID : String)
  | isAttachedQ (volumeID nodeID : String)
  | resizeDisk (volumeID : String) (sizeBytes : Int)
deriving DecidableEq, Repr

/-- Response oracles for the Disk Store Client: for each remote operation,
the outcome the remote end would return for given arguments. The controller
code calls each operation at most once per request, so pure oracles are a
faithful rendering of one RPC execution. -/
structure CloudBehavior where
  createDisk : String → DiskOptions → Except CloudErr Disk
  deleteDisk : String → Bool × Option CloudErr
  getDiskByID : String → Except CloudErr Disk
  getPVMInstanceByID : String → Except CloudErr Unit
  attachDisk : String → String → Option CloudErr
  detachDisk : String → String → Option CloudErr
  isAttached : String → String → Bool × Option CloudErr
  resizeDisk : String → Int → Except CloudErr Int

/-- The supported access modes (volumeCaps in controller.go): single node
writer only. -/
def volumeCaps : List AccessMode := [AccessMode.singleNodeWriter]

/-- Whether one requested capability matches a supported access mode
(the hasSupport closure inside isValidVolumeCapabilities). -/
def hasSupport (c : VolumeCapability) : Bool :=
  volumeCaps.any fun m => m == c.accessMode

/-- Whether every requested capability is supported. -/
def isValidVolumeCapabilities (volCaps : List VolumeCapability) : Bool :=
  volCaps.all fun c => hasSupport c

/-- Request of CreateVolume; the parameters map is carried as an association
list. -/
structure CreateVolumeRequest where
  name : String
  capacityRange : Option CapacityRange
  volumeCapabilities : List VolumeCapability
  parameters : List (String × String)
deriving DecidableEq, Repr

structure DeleteVolumeRequest where
  volumeId : String
deriving DecidableEq, Repr

structure ControllerPublishVolumeRequest where
  volumeId : String
  nodeId : String
  volumeCapability : Option VolumeCapability
deriving DecidableEq, Repr

structure ControllerUnpublishVolumeRequest where
  volumeId : String
  nodeId : String
deriving DecidableEq, Repr

structure ValidateVolumeCapabilitiesRequest where
  volumeId : String
  volumeCapabilities : List VolumeCapability
deriving DecidableEq, Repr

structure ControllerExpandVolumeRequest where
  volumeId : String
  capacityRange : Option CapacityRange
deriving DecidableEq, Repr

/-- Volume descriptor of a successful CreateVolume response; the content
source field of the source response is always nil and is omitted. -/
structure CreateVolumeResponse where
  volumeId : String
  capacityBytes : Int
  volumeContext : List (String × String)
deriving DecidableEq, Repr

structure ControllerPublishVolumeResponse where
  publishContext : List (String × String)
deriving DecidableEq, Repr

structure ValidateVolumeCapabilitiesResponse where
  confirmed : Option (List VolumeCapability)
deriving DecidableEq, Repr

structure ControllerExpandVolumeResponse where
  capacityBytes : Int
  nodeExpansionRequired : Bool
deriving DecidableEq, Repr

/-- The getVolSizeBytes helper: default size when no capacity range is given,
otherwise the rounded required size, rejected when it exceeds a positive
limit. -/
def getVolSizeBytes (req : CreateVolumeRequest) : Except Code Int :=
  match req.capacityRange with
  | none => Except.ok DefaultVolumeSize
  | some capRange =>
    let volSizeBytes := RoundUpBytes capRange.requiredBytes
    if 0 < capRange.limitBytes ∧ capRange.limitBytes < volSizeBytes then
      Except.error Code.invalidArgument
    else
      Except.ok volSizeBytes

/-- Parameter parsing loop of CreateVolume: every key must lowercase to the
volume type key, whose value is kept; any other key aborts with
InvalidArgument. -/
def parseParameters (params : List (String × String)) : Except Code String :=
  params.foldl
    (fun acc kv =>
      match acc with
      | Except.error e => Except.error e
      | Except.ok _ =>
        if kv.fst.toLower = VolumeTypeKey then Except.ok kv.snd
        else Except.error Code.invalidArgument)
    (Except.ok "")

/-- The newCreateVolumeResponse helper: volume descriptor built from the
disk the Disk Store returned. -/
def newCreateVolumeResponse (disk : Disk) : CreateVolumeResponse :=
  { volumeId := disk.volumeID
    capacityBytes := GiBToBytes disk.capacityGiB
    volumeContext := [] }

/-- CreateVolume: validate name, size, capabilities and parameters, then
issue the Disk Store create call and classify its outcome. -/
def CreateVolume (cloud : CloudBehavior) (req : CreateVolumeRequest) :
    Except Code CreateVolumeResponse × List CloudCall :=
  if req.name.length = 0 then (Except.error Code.invalidArgument, [])
  else
    match getVolSizeBytes req with
    | Except.error c => (Except.error c, [])
    | Except.ok volSizeBytes =>
      if req.volumeCapabilities.length = 0 then (Except.error Code.invalidArgument, [])
      else if !(isValidVolumeCapabilities req.volumeCapabilities) then
        (Except.error Code.invalidArgument, [])
      else
        match parseParameters req.parameters with
        | Except.error c => (Except.error c, [])
        | Except.ok volumeType =>
          let opts : DiskOptions :=
            { shareable := false, capacityBytes := volSizeBytes, volumeType := volumeType }
          match cloud.createDisk req.name opts with
          | Except.error e =>
            let errCode :=
              if e = CloudErr.idempotentParameterMismatch then Code.alreadyExists
              else if e = CloudErr.notFound then Code.notFound
              else Code.internal
            (Except.error errCode, [CloudCall.createDisk req.name opts])
          | Except.ok disk =>
            (Except.ok (newCreateVolumeResponse disk), [CloudCall.createDisk req.name opts])

/-- DeleteVolume: probe existence first; a not-found probe result succeeds
immediately, any other probe outcome (success or failure) falls through to
the delete call, whose error alone determines the result. -/
def DeleteVolume (cloud : CloudBehavior) (req : DeleteVolumeRequest) :
    Except Code Unit × List CloudCall :=
  if req.volumeId.length = 0 then (Except.error Code.invalidArgument, [])
  else
    let probe := CloudCall.getDisk req.volumeId
    let doDelete : Except Code Unit × List CloudCall :=
      match cloud.deleteDisk req.volumeId with
      | (_, some _) => (Except.error Code.internal, [probe, CloudCall.deleteDisk req.volumeId])
      | (_, none) => (Except.ok (), [probe, CloudCall.deleteDisk req.volumeId])
    match cloud.getDiskByID req.volumeId with
    | Except.error CloudErr.notFound => (Except.ok (), [probe])
    | Except.error _ => doDelete
    | Except.ok _ => doDelete

/-- ControllerPublishVolume: validate inputs, require the node and the
volume to exist, then return success at once when the volume is already
attached to the node, otherwise attach and classify the outcome. -/
def ControllerPublishVolume (cloud : CloudBehavior) (req : ControllerPublishVolumeRequest) :
    Except Code ControllerPublishVolumeResponse × List CloudCall :=
  if req.volumeId.length = 0 then (Except.error Code.invalidArgument, [])
  else if req.nodeId.length = 0 then (Except.error Code.invalidArgument, [])
  else
    match req.volumeCapability with
    | none => (Except.error Code.invalidArgument, [])
    | some volCap =>
      if !(isValidVolumeCapabilities [volCap]) then (Except.error Code.invalidArgument, [])
      else
        match cloud.getPVMInstanceByID req.nodeId with
        | Except.error _ => (Except.error Code.notFound, [CloudCall.getInstance req.nodeId])
        | Except.ok _ =>
          match cloud.getDiskByID req.volumeId with
          | Except.error e =>
            (Except.error (if e = CloudErr.notFound then Code.notFound else Code.internal),
             [CloudCall.getInstance req.nodeId, CloudCall.getDisk req.volumeId])
          | Except.ok disk =>
            let pvInfo := [(WWNKey, disk.wwn)]
            match cloud.isAttached req.volumeId req.nodeId with
            | (true, _) =>
              (Except.ok { publishContext := pvInfo },
               [CloudCall.getInstance req.nodeId, CloudCall.getDisk req.volumeId,
                CloudCall.isAttachedQ req.volumeId req.nodeId])
            | (false, _) =>
              let trace :=
                [CloudCall.getInstance req.nodeId, CloudCall.getDisk req.volumeId,
                 CloudCall.isAttachedQ req.volumeId req.nodeId,
                 CloudCall.attachDisk req.volumeId req.nodeId]
              match cloud.attachDisk req.volumeId req.nodeId with
              | some e =>
                (Except.error (if e = CloudErr.alreadyExists then Code.alreadyExists else Code.internal),
                 trace)
              | none => (Except.ok { publishContext := pvInfo }, trace)

/-- ControllerUnpublishVolume: a not-found volume succeeds immediately; a
not-attached answer from the attachment query (its error, if any, ignored)
succeeds immediately; only an attached volume is detached. -/
def ControllerUnpublishVolume (cloud : CloudBehavior) (req : ControllerUnpublishVolumeRequest) :
    Except Code Unit × List CloudCall :=
  if req.volumeId.length = 0 then (Except.error Code.invalidArgument, [])
  else if req.nodeId.length = 0 then (Except.error Code.invalidArgument, [])
  else
    let probe := CloudCall.getDisk req.volumeId
    let checkAttach : Except Code Unit × List CloudCall :=
      match cloud.isAttached req.volumeId req.nodeId with
      | (false, _) => (Except.ok (), [probe, CloudCall.isAttachedQ req.volumeId req.nodeId])
      | (true, _) =>
        let trace :=
          [probe, CloudCall.isAttachedQ req.volumeId req.nodeId,
           CloudCall.detachDisk req.volumeId req.nodeId]
        match cloud.detachDisk req.volumeId req.nodeId with
        | some _ => (Except.error Code.internal, trace)
        | none => (Except.ok (), trace)
    match cloud.getDiskByID req.volumeId with
    | Except.error CloudErr.notFound => (Except.ok (), [probe])
    | Except.error _ => checkAttach
    | Except.ok _ => checkAttach

/-- ValidateVolumeCapabilities: require the volume to exist, then confirm
the requested capabilities unmodified when all are supported, else return an
empty confirmation without error. -/
def ValidateVolumeCapabilities (cloud : CloudBehavior) (req : ValidateVolumeCapabilitiesRequest) :
    Except Code ValidateVolumeCapabilitiesResponse × List CloudCall :=
  if req.volumeId.length = 0 then (Except.error Code.invalidArgument, [])
  else if req.volumeCapabilities.length = 0 then (Except.error Code.invalidArgument, [])
  else
    match cloud.getDiskByID req.volumeId with
    | Except.error e =>
      (Except.error (if e = CloudErr.notFound then Code.notFound else Code.internal),
       [CloudCall.getDisk req.volumeId])
    | Except.ok _ =>
      let confirmed : Option (List VolumeCapability) :=
        if isValidVolumeCapabilities req.volumeCapabilities then some req.volumeCapabilities
        else none
      (Except.ok { confirmed := confirmed }, [CloudCall.getDisk req.volumeId])

/-- ControllerExpandVolume: round the required size up, reject it against a
positive limit, then resize remotely and report the returned actual GiB size
converted to bytes, always demanding node expansion. -/
def ControllerExpandVolume (cloud : CloudBehavior) (req : ControllerExpandVolumeRequest) :
    Except Code ControllerExpandVolumeResponse × List CloudCall :=
  if req.volumeId.length = 0 then (Except.error Code.invalidArgument, [])
  else
    match req.capacityRange with
    | none => (Except.error Code.invalidArgument, [])
    | some capRange =>
      let newSize := RoundUpBytes capRange.requiredBytes
      let maxVolSize := capRange.limitBytes
      if 0 < maxVolSize ∧ maxVolSize < newSize then (Except.error Code.invalidArgument, [])
      else
        match cloud.resizeDisk req.volumeId newSize with
        | Except.error _ =>
          (Except.error Code.internal, [CloudCall.resizeDisk req.volumeId newSize])
        | Except.ok actualSizeGiB =>
          (Except.ok { capacityBytes := GiBToBytes actualSizeGiB, nodeExpansionRequired := true },
           [CloudCall.resizeDisk req.volumeId newSize])

/-- Modelled from the spec: contract of the Disk Store resize operation,
which is not among the embedded sources — on success it returns the actual
disk size in GiB, and the spec requires that actual size to be at least the
requested (already normalized) byte size. -/
def ResizeRespectsRequest (cloud : CloudBehavior) : Prop :=
  ∀ id sz n, cloud.resizeDisk id sz = Except.ok n → sz ≤ GiBToBytes n

/-- Concrete disk fixture used to instantiate oracle behaviors. -/
def wDisk : Disk := { volumeID := "vol-1", capacityGiB := 2, wwn := "wwn-1" }

/-- Concrete Disk Store oracle: one existing disk, all mutations succeed,
resize returns the ceiling of the requested size in GiB. -/
def wCloud : CloudBehavior :=
  { createDisk := fun _ _ => Except.ok wDisk
    deleteDisk := fun _ => (true, none)
    getDiskByID := fun id => if id = "vol-1" then Except.ok wDisk else Except.error CloudErr.notFound
    getPVMInstanceByID := fun _ => Except.ok ()
    attachDisk := fun _ _ => none
    detachDisk := fun _ _ => none
    isAttached := fun _ _ => (false, none)
    resizeDisk := fun _ sz => Except.ok ((sz + GiB - 1) / GiB) }

/-- Variant oracle reporting the volume as already attached. -/
def wCloudAttached : CloudBehavior :=
  { wCloud with isAttached := fun _ _ => (true, none) }

/-- Variant oracle whose existence query fails with a non not-found error. -/
def wCloudBroken : CloudBehavior :=
  { wCloud with getDiskByID := fun _ => Except.error (CloudErr.other "boom") }

/-- Variant oracle whose attachment query reports not attached together with
an error. -/
def wCloudFlaky : CloudBehavior :=
  { wCloud with isAttached := fun _ _ => (false, some (CloudErr.other "flaky")) }

/-- Concrete CreateVolume request fixture: one GiB, supported capability,
one recognized type parameter. -/
def wCreateReq : CreateVolumeRequest :=
  { name := "v"
    capacityRange := some { requiredBytes := 1073741824, limitBytes := 0 }
    volumeCapabilities := [{ accessMode := AccessMode.singleNodeWriter }]
    parameters := [] }

/-- Concrete CreateVolume request fixture without a capacity range. -/
def wCreateReqNoRange : CreateVolumeRequest :=
  { name := "v"
    capacityRange := none
    volumeCapabilities := [{ accessMode := AccessMode.singleNodeWriter }]
    parameters := [] }

/-- C1: for every ControllerExpandVolume call that passes input validation
and whose remote resize call succeeds, the capacity reported in the response
is at least the normalized (rounded-up) requested size, for every resize
result admitted by the Disk Store resize contract. -/
theorem expand_capacity_ge_normalized
    (cloud : CloudBehavior) (req : ControllerExpandVolumeRequest)
    (resp : ControllerExpandVolumeResponse) (trace : List CloudCall) (capRange : CapacityRange)
    (hstore : ResizeRespectsRequest cloud)
    (hcr : req.capacityRange = some capRange)
    (hres : ControllerExpandVolume cloud req = (Except.ok resp, trace)) :
    RoundUpBytes capRange.requiredBytes ≤ resp.capacityBytes := by
  by_cases hv : req.volumeId.length = 0
  · simp [ControllerExpandVolume, hv] at hres
  · simp only [ControllerExpandVolume, if_neg hv, hcr] at hres
    by_cases hlim : 0 < capRange.limitBytes ∧ capRange.limitBytes < RoundUpBytes capRange.requiredBytes
    · simp [if_pos hlim] at hres
    · rw [if_neg hlim] at hres
      cases hrd : cloud.resizeDisk req.volumeId (RoundUpBytes capRange.requiredBytes) with
      | error e => rw [hrd] at hres; simp at hres
      | ok n =>
        rw [hrd] at hres
        simp only [Prod.mk.injEq, Except.ok.injEq] at hres
        have hcap : resp.capacityBytes = GiBToBytes n := by rw [← hres.1]
        rw [hcap]
        exact hstore _ _ _ hrd

/-- Witness for C1 at a concrete request of five bytes against the concrete
oracle, whose resize returns one GiB. -/
theorem expand_capacity_ge_normalized_witness :
    RoundUpBytes (5 : Int) ≤ (1073741824 : Int) :=
  expand_capacity_ge_normalized wCloud
    { volumeId := "vol-1", capacityRange := some { requiredBytes := 5, limitBytes := 0 } }
    { capacityBytes := 1073741824, nodeExpansionRequired := true }
    [CloudCall.resizeDisk "vol-1" 1073741824]
    { requiredBytes := 5, limitBytes := 0 }
    (by
      intro id sz n h
      simp only [wCloud, GiB, Except.ok.injEq] at h
      simp only [GiBToBytes, GiB]
      omega)
    rfl
    rfl

/-- C7: for every capacity request, in the create path as in the expand
path, with a positive limit smaller than the rounded-up required size, the
operation fails as InvalidArgument and issues no remote Disk Store call. -/
theorem limit_exceeded_fails_before_remote_call
    (cloud : CloudBehavior) (creq : CreateVolumeRequest) (ereq : ControllerExpandVolumeRequest)
    (ccr ecr : CapacityRange)
    (hccr : creq.capacityRange = some ccr)
    (hcl : 0 < ccr.limitBytes) (hcx : ccr.limitBytes < RoundUpBytes ccr.requiredBytes)
    (hecr : ereq.capacityRange = some ecr)
    (hel : 0 < ecr.limitBytes) (hex : ecr.limitBytes < RoundUpBytes ecr.requiredBytes) :
    CreateVolume cloud creq = (Except.error Code.invalidArgument, []) ∧
    ControllerExpandVolume cloud ereq = (Except.error Code.invalidArgument, []) := by
  constructor
  · by_cases hn : creq.name.length = 0
    · simp [CreateVolume, hn]
    · have hsz : getVolSizeBytes creq = Except.error Code.invalidArgument := by
        simp [getVolSizeBytes, hccr, hcl, hcx]
      simp [CreateVolume, hn, hsz]
  · by_cases hv : ereq.volumeId.length = 0
    · simp [ControllerExpandVolume, hv]
    · simp [ControllerExpandVolume, hv, hecr, hcl, hel, hex]

/-- Witness for C7 at concrete requests asking one byte under a limit of
five bytes. -/
theorem limit_exceeded_fails_before_remote_call_witness :
    CreateVolume wCloud
      { name := "v", capacityRange := some { requiredBytes := 1, limitBytes := 5 },
        volumeCapabilities := [{ accessMode := AccessMode.singleNodeWriter }], parameters := [] } =
      (Except.error Code.invalidArgument, []) ∧
    ControllerExpandVolume wCloud
      { volumeId := "vol-1", capacityRange := some { requiredBytes := 1, limitBytes := 5 } } =
      (Except.error Code.invalidArgument, []) :=
  limit_exceeded_fails_before_remote_call wCloud _ _
    { requiredBytes := 1, limitBytes := 5 } { requiredBytes := 1, limitBytes := 5 }
    rfl (by decide) (by decide) rfl (by decide) (by decide)

/-- C2 counterexample: a CreateVolume request with a present capacity range
whose requiredBytes is zero passes size zero to the Disk Store create call,
not the fixed default volume size. -/
theorem create_zero_required_passes_zero_not_default :
    (CreateVolume wCloud
      { name := "v", capacityRange := some { requiredBytes := 0, limitBytes := 0 },
        volumeCapabilities := [{ accessMode := AccessMode.singleNodeWriter }],
        parameters := [] }).snd =
      [CloudCall.createDisk "v" { shareable := false, capacityBytes := 0, volumeType := "" }] ∧
    (0 : Int) ≠ DefaultVolumeSize := by
  constructor
  · rfl
  · decide

/-- C2 amended: for every CreateVolume request that passes local validation
and carries no capacity range, the size passed to the Disk Store create call
is the fixed default volume size, which the Size Normalizer leaves
unchanged; a present capacity range with zero requiredBytes instead passes
the round-up of zero, which is zero. -/
theorem create_absent_range_uses_default_size
    (cloud : CloudBehavior) (req : CreateVolumeRequest) (vt : String)
    (hname : req.name.length ≠ 0)
    (hcaps : req.volumeCapabilities.length ≠ 0)
    (hvalid : isValidVolumeCapabilities req.volumeCapabilities = true)
    (hparams : parseParameters req.parameters = Except.ok vt) :
    (req.capacityRange = none →
      (CreateVolume cloud req).snd =
        [CloudCall.createDisk req.name
          { shareable := false, capacityBytes := DefaultVolumeSize, volumeType := vt }]) ∧
    RoundUpBytes DefaultVolumeSize = DefaultVolumeSize ∧
    (∀ cr, req.capacityRange = some cr → cr.requiredBytes = 0 →
      (CreateVolume cloud req).snd =
        [CloudCall.createDisk req.name
          { shareable := false, capacityBytes := 0, volumeType := vt }]) := by
  refine ⟨?_, by decide, ?_⟩
  · intro hcr
    have hsz : getVolSizeBytes req = Except.ok DefaultVolumeSize := by
      simp [getVolSizeBytes, hcr]
    simp only [CreateVolume, if_neg hname, hsz, if_neg hcaps, hvalid, Bool.not_true, hparams]
    cases hcd : cloud.createDisk req.name
        { shareable := false, capacityBytes := DefaultVolumeSize, volumeType := vt } <;>
      simp [hcd]
  · intro cr hcr hzero
    have hsz : getVolSizeBytes req = Except.ok 0 := by
      simp [getVolSizeBytes, hcr, hzero, RoundUpBytes, GiB]
      omega
    simp only [CreateVolume, if_neg hname, hsz, if_neg hcaps, hvalid, Bool.not_true, hparams]
    cases hcd : cloud.createDisk req.name
        { shareable := false, capacityBytes := 0, volumeType := vt } <;>
      simp [hcd]

/-- Witness for the amended C2 at the concrete request without a capacity
range against the concrete oracle. -/
theorem create_absent_range_uses_default_size_witness :
    (CreateVolume wCloud wCreateReqNoRange).snd =
      [CloudCall.createDisk "v"
        { shareable := false, capacityBytes := DefaultVolumeSize, volumeType := "" }] :=
  (create_absent_range_uses_default_size wCloud wCreateReqNoRange ""
    (by decide) (by decide) (by decide) rfl).1 rfl

/-- C3: for every CreateVolume request that passes local validation, the
result is classified exactly by the Disk Store create outcome: success
carrying the disk descriptor on a successful create, NotFound on a
not-found failure, AlreadyExists on an idempotent parameter mismatch, and
Internal on any other remote failure. -/
theorem create_volume_error_classification
    (cloud : CloudBehavior) (req : CreateVolumeRequest) (sz : Int) (vt : String)
    (hname : req.name.length ≠ 0)
    (hsize : getVolSizeBytes req = Except.ok sz)
    (hcaps : req.volumeCapabilities.length ≠ 0)
    (hvalid : isValidVolumeCapabilities req.volumeCapabilities = true)
    (hparams : parseParameters req.parameters = Except.ok vt) :
    (∀ d, cloud.createDisk req.name { shareable := false, capacityBytes := sz, volumeType := vt } =
        Except.ok d →
      (CreateVolume cloud req).fst = Except.ok (newCreateVolumeResponse d)) ∧
    (cloud.createDisk req.name { shareable := false, capacityBytes := sz, volumeType := vt } =
        Except.error CloudErr.notFound →
      (CreateVolume cloud req).fst = Except.error Code.notFound) ∧
    (cloud.createDisk req.name { shareable := false, capacityBytes := sz, volumeType := vt } =
        Except.error CloudErr.idempotentParameterMismatch →
      (CreateVolume cloud req).fst = Except.error Code.alreadyExists) ∧
    (∀ e, cloud.createDisk req.name { shareable := false, capacityBytes := sz, volumeType := vt } =
        Except.error e →
      e ≠ CloudErr.notFound → e ≠ CloudErr.idempotentParameterMismatch →
      (CreateVolume cloud req).fst = Except.error Code.internal) := by
  have hcaps2 : req.volumeCapabilities ≠ [] := by simpa using hcaps
  refine ⟨?_, ?_, ?_, ?_⟩
  · intro d hcd
    simp [CreateVolume, if_neg hname, hsize, hcaps2, hvalid, hparams, hcd]
  · intro hcd
    simp [CreateVolume, if_neg hname, hsize, hcaps2, hvalid, hparams, hcd]
  · intro hcd
    simp [CreateVolume, if_neg hname, hsize, hcaps2, hvalid, hparams, hcd]
  · intro e hcd hne1 hne2
    simp [CreateVolume, if_neg hname, hsize, hcaps2, hvalid, hparams, hcd, hne1, hne2]

/-- Witness for C3 at the concrete one GiB request against the concrete
oracle, whose create succeeds with the fixture disk. -/
theorem create_volume_error_classification_witness :
    (CreateVolume wCloud wCreateReq).fst = Except.ok (newCreateVolumeResponse wDisk) :=
  (create_volume_error_classification wCloud wCreateReq 1073741824 ""
    (by decide) rfl (by decide) (by decide) rfl).1 wDisk rfl

/-- C4: for every ControllerUnpublishVolume call with non-empty identifiers
on an existing volume whose attachment query reports not attached, with or
without an accompanying error, the call succeeds and issues no detach
call. -/
theorem unpublish_not_attached_succeeds_without_detach
    (cloud : CloudBehavior) (req : ControllerUnpublishVolumeRequest)
    (disk : Disk) (e : Option CloudErr)
    (hv : req.volumeId.length ≠ 0) (hn : req.nodeId.length ≠ 0)
    (hdisk : cloud.getDiskByID req.volumeId = Except.ok disk)
    (hatt : cloud.isAttached req.volumeId req.nodeId = (false, e)) :
    ControllerUnpublishVolume cloud req =
      (Except.ok (), [CloudCall.getDisk req.volumeId,
                      CloudCall.isAttachedQ req.volumeId req.nodeId]) := by
  simp [ControllerUnpublishVolume, if_neg hv, if_neg hn, hdisk, hatt]

/-- Witness for C4 at concrete identifiers against the oracle whose
attachment query reports not attached together with an error. -/
theorem unpublish_not_attached_succeeds_witness :
    ControllerUnpublishVolume wCloudFlaky { volumeId := "vol-1", nodeId := "node-A" } =
      (Except.ok (), [CloudCall.getDisk "vol-1", CloudCall.isAttachedQ "vol-1" "node-A"]) :=
  unpublish_not_attached_succeeds_without_detach wCloudFlaky
    { volumeId := "vol-1", nodeId := "node-A" } wDisk (some (CloudErr.other "flaky"))
    (by decide) (by decide) (by decide) rfl

/-- C5: for every ControllerPublishVolume call with valid inputs on an
existing node and volume whose attachment query reports already attached,
the call succeeds at once with the publish context mapping the device key to
the worldWideName of the disk, and no attach call is issued. -/
theorem publish_already_attached_idempotent
    (cloud : CloudBehavior) (req : ControllerPublishVolumeRequest)
    (disk : Disk) (e : Option CloudErr) (volCap : VolumeCapability)
    (hv : req.volumeId.length ≠ 0) (hn : req.nodeId.length ≠ 0)
    (hcap : req.volumeCapability = some volCap)
    (hvalid : isValidVolumeCapabilities [volCap] = true)
    (hinst : cloud.getPVMInstanceByID req.nodeId = Except.ok ())
    (hdisk : cloud.getDiskByID req.volumeId = Except.ok disk)
    (hatt : cloud.isAttached req.volumeId req.nodeId = (true, e)) :
    ControllerPublishVolume cloud req =
      (Except.ok { publishContext := [(WWNKey, disk.wwn)] },
       [CloudCall.getInstance req.nodeId, CloudCall.getDisk req.volumeId,
        CloudCall.isAttachedQ req.volumeId req.nodeId]) := by
  simp [ControllerPublishVolume, if_neg hv, if_neg hn, hcap, hvalid, hinst, hdisk, hatt]

/-- Witness for C5 at concrete identifiers against the oracle reporting the
volume as already attached. -/
theorem publish_already_attached_idempotent_witness :
    ControllerPublishVolume wCloudAttached
      { volumeId := "vol-1", nodeId := "node-A",
        volumeCapability := some { accessMode := AccessMode.singleNodeWriter } } =
      (Except.ok { publishContext := [(WWNKey, "wwn-1")] },
       [CloudCall.getInstance "node-A", CloudCall.getDisk "vol-1",
        CloudCall.isAttachedQ "vol-1" "node-A"]) :=
  publish_already_attached_idempotent wCloudAttached
    { volumeId := "vol-1", nodeId := "node-A",
      volumeCapability := some { accessMode := AccessMode.singleNodeWriter } }
    wDisk none { accessMode := AccessMode.singleNodeWriter }
    (by decide) (by decide) rfl (by decide) rfl (by decide) rfl

/-- C6: for every DeleteVolume call with a non-empty volume identifier whose
existence probe reports not found, the call succeeds immediately and issues
no delete call; a repeated call issues the same probe and succeeds again. -/
theorem delete_missing_volume_succeeds_without_delete
    (cloud : CloudBehavior) (req : DeleteVolumeRequest)
    (hv : req.volumeId.length ≠ 0)
    (hnf : cloud.getDiskByID req.volumeId = Except.error CloudErr.notFound) :
    DeleteVolume cloud req = (Except.ok (), [CloudCall.getDisk req.volumeId]) := by
  simp [DeleteVolume, if_neg hv, hnf]

/-- Witness for C6 at a volume identifier the concrete oracle does not
know. -/
theorem delete_missing_volume_succeeds_witness :
    DeleteVolume wCloud { volumeId := "ghost" } =
      (Except.ok (), [CloudCall.getDisk "ghost"]) :=
  delete_missing_volume_succeeds_without_delete wCloud { volumeId := "ghost" }
    (by decide) (by decide)

/-- C9: for every DeleteVolume call with a non-empty volume identifier whose
existence probe fails with an error other than not found, the probe error is
discarded, the delete call is still issued, and the overall result is
determined solely by the delete outcome. -/
theorem delete_probe_error_ignored_delete_still_issued
    (cloud : CloudBehavior) (req : DeleteVolumeRequest) (e : CloudErr)
    (hv : req.volumeId.length ≠ 0)
    (herr : cloud.getDiskByID req.volumeId = Except.error e)
    (hne : e ≠ CloudErr.notFound) :
    CloudCall.deleteDisk req.volumeId ∈ (DeleteVolume cloud req).snd ∧
    ((cloud.deleteDisk req.volumeId).snd = none →
      (DeleteVolume cloud req).fst = Except.ok ()) ∧
    (∀ de, (cloud.deleteDisk req.volumeId).snd = some de →
      (DeleteVolume cloud req).fst = Except.error Code.internal) := by
  have hD : DeleteVolume cloud req =
      (match cloud.deleteDisk req.volumeId with
       | (_, some _) =>
         (Except.error Code.internal,
          [CloudCall.getDisk req.volumeId, CloudCall.deleteDisk req.volumeId])
       | (_, none) =>
         (Except.ok (),
          [CloudCall.getDisk req.volumeId, CloudCall.deleteDisk req.volumeId])) := by
    cases e with
    | notFound => exact absurd rfl hne
    | alreadyExists => simp [DeleteVolume, if_neg hv, herr]
    | idempotentParameterMismatch => simp [DeleteVolume, if_neg hv, herr]
    | other msg => simp [DeleteVolume, if_neg hv, herr]
  rcases hdel : cloud.deleteDisk req.volumeId with ⟨b, oe⟩
  rw [hdel] at hD
  cases oe with
  | none =>
    rw [hD]
    refine ⟨by simp, fun _ => rfl, ?_⟩
    intro de hde
    simp at hde
  | some er =>
    rw [hD]
    refine ⟨by simp, ?_, fun de _ => rfl⟩
    intro hnone
    simp at hnone

/-- Witness for C9 against the oracle whose existence probe always fails
with an opaque error and whose delete succeeds. -/
theorem delete_probe_error_ignored_witness :
    CloudCall.deleteDisk "vol-1" ∈ (DeleteVolume wCloudBroken { volumeId := "vol-1" }).snd ∧
    (DeleteVolume wCloudBroken { volumeId := "vol-1" }).fst = Except.ok () := by
  have h := delete_probe_error_ignored_delete_still_issued wCloudBroken { volumeId := "vol-1" }
    (CloudErr.other "boom") (by decide) (by decide) (by decide)
  exact ⟨h.1, h.2.1 rfl⟩

/-- C10: for every ControllerPublishVolume call with valid inputs on an
existing node and volume whose attachment query reports not attached
together with an error, the query error is discarded, the attach call is
still issued, and the result is classified solely by the attach outcome. -/
theorem publish_attach_despite_query_error
    (cloud : CloudBehavior) (req : ControllerPublishVolumeRequest)
    (disk : Disk) (e : CloudErr) (volCap : VolumeCapability)
    (hv : req.volumeId.length ≠ 0) (hn : req.nodeId.length ≠ 0)
    (hcap : req.volumeCapability = some volCap)
    (hvalid : isValidVolumeCapabilities [volCap] = true)
    (hinst : cloud.getPVMInstanceByID req.nodeId = Except.ok ())
    (hdisk : cloud.getDiskByID req.volumeId = Except.ok disk)
    (hatt : cloud.isAttached req.volumeId req.nodeId = (false, some e)) :
    CloudCall.attachDisk req.volumeId req.nodeId ∈ (ControllerPublishVolume cloud req).snd ∧
    (cloud.attachDisk req.volumeId req.nodeId = none →
      (ControllerPublishVolume cloud req).fst =
        Except.ok { publishContext := [(WWNKey, disk.wwn)] }) ∧
    (cloud.attachDisk req.volumeId req.nodeId = some CloudErr.alreadyExists →
      (ControllerPublishVolume cloud req).fst = Except.error Code.alreadyExists) ∧
    (∀ ae, cloud.attachDisk req.volumeId req.nodeId = some ae →
      ae ≠ CloudErr.alreadyExists →
      (ControllerPublishVolume cloud req).fst = Except.error Code.internal) := by
  refine ⟨?_, ?_, ?_, ?_⟩
  · cases had : cloud.attachDisk req.volumeId req.nodeId <;>
      simp [ControllerPublishVolume, if_neg hv, if_neg hn, hcap, hvalid, hinst, hdisk, hatt, had]
  · intro had
    simp [ControllerPublishVolume, if_neg hv, if_neg hn, hcap, hvalid, hinst, hdisk, hatt, had]
  · intro had
    simp [ControllerPublishVolume, if_neg hv, if_neg hn, hcap, hvalid, hinst, hdisk, hatt, had]
  · intro ae had hne
    simp [ControllerPublishVolume, if_neg hv, if_neg hn, hcap, hvalid, hinst, hdisk, hatt, had,
      hne]

/-- Witness for C10 against the oracle whose attachment query reports not
attached together with an error and whose attach succeeds. -/
theorem publish_attach_despite_query_error_witness :
    CloudCall.attachDisk "vol-1" "node-A" ∈
      (ControllerPublishVolume wCloudFlaky
        { volumeId := "vol-1", nodeId := "node-A",
          volumeCapability := some { accessMode := AccessMode.singleNodeWriter } }).snd ∧
    (ControllerPublishVolume wCloudFlaky
        { volumeId := "vol-1", nodeId := "node-A",
          volumeCapability := some { accessMode := AccessMode.singleNodeWriter } }).fst =
      Except.ok { publishContext := [(WWNKey, "wwn-1")] } := by
  have h := publish_attach_despite_query_error wCloudFlaky
    { volumeId := "vol-1", nodeId := "node-A",
      volumeCapability := some { accessMode := AccessMode.singleNodeWriter } }
    wDisk (CloudErr.other "flaky") { accessMode := AccessMode.singleNodeWriter }
    (by decide) (by decide) rfl (by decide) rfl (by decide) rfl
  exact ⟨h.1, h.2.1 rfl⟩

/-- C8: for every ValidateVolumeCapabilities call with a non-empty volume
identifier, a non-empty capability list and an existing volume, the call
succeeds, confirming the requested list unmodified exactly when every
requested access mode is the single supported single-node-writer mode and
returning an empty confirmation otherwise. -/
theorem validate_capabilities_gate
    (cloud : CloudBehavior) (req : ValidateVolumeCapabilitiesRequest) (disk : Disk)
    (hv : req.volumeId.length ≠ 0)
    (hcaps : req.volumeCapabilities.length ≠ 0)
    (hdisk : cloud.getDiskByID req.volumeId = Except.ok disk) :
    ValidateVolumeCapabilities cloud req =
      (Except.ok { confirmed :=
          if isValidVolumeCapabilities req.volumeCapabilities then some req.volumeCapabilities
          else none },
       [CloudCall.getDisk req.volumeId]) ∧
    (isValidVolumeCapabilities req.volumeCapabilities = true ↔
      ∀ c ∈ req.volumeCapabilities, c.accessMode = AccessMode.singleNodeWriter) ∧
    req.volumeCapabilities ≠ [] := by
  have hcaps2 : req.volumeCapabilities ≠ [] := by simpa using hcaps
  refine ⟨?_, ?_, hcaps2⟩
  · simp [ValidateVolumeCapabilities, if_neg hv, hcaps2, hdisk]
  · simp only [isValidVolumeCapabilities, hasSupport, volumeCaps, List.all_eq_true,
      List.any_cons, List.any_nil, Bool.or_false, beq_iff_eq]
    constructor
    · intro h c hc
      exact (h c hc).symm
    · intro h c hc
      exact (h c hc).symm

/-- Witness for C8 at a concrete single supported capability against the
concrete oracle. -/
theorem validate_capabilities_gate_witness :
    ValidateVolumeCapabilities wCloud
      { volumeId := "vol-1",
        volumeCapabilities := [{ accessMode := AccessMode.singleNodeWriter }] } =
      (Except.ok { confirmed := some [{ accessMode := AccessMode.singleNodeWriter }] },
       [CloudCall.getDisk "vol-1"]) :=
  (validate_capabilities_gate wCloud
    { volumeId := "vol-1",
      volumeCapabilities := [{ accessMode := AccessMode.singleNodeWriter }] }
    wDisk (by decide) (by decide) (by decide)).1

end PowerVS
